import Mathlib

/-!
Verification of the doze session server (src/api/main.go).

The development shallowly embeds the parts of main.go that the checked
properties concern:

  * the output RingBuffer (NewRingBuffer, Write, String);
  * the session state machine: the Session record and the transition
    functions startClaudeProcess, startClaudeProcessWithMessage,
    resumeClaudeProcess, the result-message branch of handleStdout
    (turnComplete below), waitForExit, resetIdleTimer, cancelIdleTimer,
    stopSession, and the HTTP handlers handleStart and handleMessage;
  * the SSE broadcast primitive broadcastEvent.

Modelling conventions. Bytes are Nat values, strings of output are lists
of bytes. Goroutine effects that leave the session (state broadcasts,
process spawns, stdin writes, delivered signals) are collected in an
Effect trace, in program order. Fallible external operations (pipe
creation, process launch, stdin writes) are driven by explicit outcome
parameters. A delivered signal means a signal the operating system
actually delivers: os.Process.Kill on an already exited process returns
ErrProcessDone and delivers nothing, which the model reflects. The idle
timer is modelled by a Boolean armed flag. Timestamps, logging, JSON
encoding and the HTTP transport are not modelled; response status codes
and error strings are kept.
-/

/-! ## Bounded output buffer (RingBuffer, main.go lines 140-200) -/

/-- The constant RingBufferSize from main.go: 10 KiB. -/
def RingBufferSize : Nat := 10 * 1024

/-- Embedding of the RingBuffer struct: fixed data array, capacity,
write cursor, and the flag set once the cursor has wrapped. -/
structure RingBuffer where
  data : List Nat
  size : Nat
  writePos : Nat
  full : Bool
deriving DecidableEq, Repr

/-- NewRingBuffer: a zeroed backing store of the given size. -/
def NewRingBuffer (size : Nat) : RingBuffer :=
  { data := List.replicate size 0, size := size, writePos := 0, full := false }

/-- One iteration of the loop body of RingBuffer.Write: store the byte at
writePos, advance the cursor modulo size, set full on wrap. -/
def RingBuffer.writeByte (rb : RingBuffer) (b : Nat) : RingBuffer :=
  let wp := (rb.writePos + 1) % rb.size
  { rb with
    data := rb.data.set rb.writePos b
    writePos := wp
    full := rb.full || decide (wp = 0) }

/-- RingBuffer.Write: writes every byte of p in order and returns
(len p, nil), exactly as the Go method always does. -/
def RingBuffer.write (rb : RingBuffer) (p : List Nat) : RingBuffer × Nat × Option String :=
  (p.foldl RingBuffer.writeByte rb, p.length, none)

/-- RingBuffer.String: contents up to writePos when not yet full,
otherwise the wrap-around reconstruction data[writePos:] ++ data[:writePos]. -/
def RingBuffer.String (rb : RingBuffer) : List Nat :=
  if !rb.full then rb.data.take rb.writePos
  else rb.data.drop rb.writePos ++ rb.data.take rb.writePos

/-- Writing a sequence of byte strings into a fresh buffer of size n. -/
def writeAll (n : Nat) (ws : List (List Nat)) : RingBuffer :=
  ws.foldl (fun rb p => (rb.write p).1) (NewRingBuffer n)

/-- The chronological view of the backing store: the bytes starting at the
write cursor, then the bytes before it. -/
def RingBuffer.view (rb : RingBuffer) : List Nat :=
  rb.data.drop rb.writePos ++ rb.data.take rb.writePos

lemma RingBuffer.data_writeByte (rb : RingBuffer) (b : Nat) :
    (rb.writeByte b).data = rb.data.set rb.writePos b := rfl

lemma RingBuffer.length_data_writeByte (rb : RingBuffer) (b : Nat) :
    (rb.writeByte b).data.length = rb.data.length := by
  simp [RingBuffer.writeByte]

lemma RingBuffer.writePos_writeByte (rb : RingBuffer) (b : Nat) :
    (rb.writeByte b).writePos = (rb.writePos + 1) % rb.size := rfl

lemma RingBuffer.size_writeByte (rb : RingBuffer) (b : Nat) :
    (rb.writeByte b).size = rb.size := rfl

lemma RingBuffer.full_writeByte (rb : RingBuffer) (b : Nat) :
    (rb.writeByte b).full = (rb.full || decide ((rb.writePos + 1) % rb.size = 0)) := rfl

/-- Dropping m elements commutes with appending a final singleton when m
stays within the first list. -/
lemma drop_append_singleton (X : List Nat) (b : Nat) (m : Nat) (h : m ≤ X.length) :
    (X ++ [b]).drop m = X.drop m ++ [b] := by
  rw [List.drop_append_eq_append_drop, Nat.sub_eq_zero_of_le h]
  rfl

/-- Single-byte step for the chronological view: the oldest byte is
dropped and the new byte appended. -/
lemma RingBuffer.view_writeByte (rb : RingBuffer) (b : Nat)
    (hd : rb.data.length = rb.size) (hw : rb.writePos < rb.size) :
    (rb.writeByte b).view = rb.view.tail ++ [b] := by
  have hwlen : rb.writePos < rb.data.length := hd ▸ hw
  have hset : rb.data.set rb.writePos b
      = rb.data.take rb.writePos ++ b :: rb.data.drop (rb.writePos + 1) :=
    List.set_eq_take_cons_drop b hwlen
  have htake : (rb.data.take rb.writePos).length = rb.writePos :=
    List.length_take_of_le (Nat.le_of_lt hwlen)
  have hviewtail : rb.view.tail = rb.data.drop (rb.writePos + 1) ++ rb.data.take rb.writePos := by
    unfold RingBuffer.view
    rw [List.drop_eq_getElem_cons hwlen]
    rfl
  rw [hviewtail]
  simp only [RingBuffer.view, RingBuffer.data_writeByte, RingBuffer.writePos_writeByte]
  rcases Nat.lt_or_ge (rb.writePos + 1) rb.size with hlt | hge
  · -- no wrap: the new cursor is writePos + 1
    have hmod : (rb.writePos + 1) % rb.size = rb.writePos + 1 := Nat.mod_eq_of_lt hlt
    rw [hmod, hset, List.drop_append_eq_append_drop, List.take_append_eq_append_take, htake]
    have hdropnil : (rb.data.take rb.writePos).drop (rb.writePos + 1) = [] :=
      List.drop_eq_nil_of_le (by rw [htake]; omega)
    have htaketake : (rb.data.take rb.writePos).take (rb.writePos + 1) = rb.data.take rb.writePos :=
      List.take_of_length_le (by rw [htake]; omega)
    have h1 : rb.writePos + 1 - rb.writePos = 1 := by omega
    rw [hdropnil, htaketake, h1]
    simp
  · -- wrap: writePos + 1 = size, the new cursor is 0
    have heq : rb.writePos + 1 = rb.size := by omega
    have hmod : (rb.writePos + 1) % rb.size = 0 := by rw [heq]; exact Nat.mod_self rb.size
    rw [hmod, hset]
    have hdropnil : rb.data.drop (rb.writePos + 1) = [] :=
      List.drop_eq_nil_of_le (by omega)
    simp [hdropnil]

/-- Writing a flat byte list, one byte at a time (the loop of Write). -/
def writeList (rb : RingBuffer) (l : List Nat) : RingBuffer :=
  l.foldl RingBuffer.writeByte rb

lemma writeList_append (rb : RingBuffer) (l : List Nat) (b : Nat) :
    writeList rb (l ++ [b]) = (writeList rb l).writeByte b := by
  simp [writeList, List.foldl_append]

/-- The state of a fresh buffer of positive size n after writing the byte
list l: cursor at l.length mod n, full exactly once n bytes have been
written, and the chronological view equal to the last n bytes of l padded
on the left with the initial zeros. -/
lemma writeList_spec (n : Nat) (hn : 0 < n) (l : List Nat) :
    (writeList (NewRingBuffer n) l).size = n ∧
    (writeList (NewRingBuffer n) l).data.length = n ∧
    (writeList (NewRingBuffer n) l).writePos = l.length % n ∧
    (writeList (NewRingBuffer n) l).full = decide (n ≤ l.length) ∧
    (writeList (NewRingBuffer n) l).view = (List.replicate n 0 ++ l).drop l.length := by
  induction l using List.reverseRecOn with
  | nil =>
      refine ⟨rfl, by simp [writeList, NewRingBuffer], by simp [writeList, NewRingBuffer], ?_, ?_⟩
      · have h0 : ¬ (n ≤ (0 : Nat)) := by omega
        simp [writeList, NewRingBuffer, h0]
      · simp [writeList, NewRingBuffer, RingBuffer.view]
  | append_singleton l b ih =>
      obtain ⟨hsize, hdata, hpos, hfull, hview⟩ := ih
      rw [writeList_append]
      set rb := writeList (NewRingBuffer n) l with hrb
      have hwlt : rb.writePos < rb.size := by
        rw [hpos, hsize]; exact Nat.mod_lt _ hn
      have hlb : (l ++ [b]).length = l.length + 1 := by simp
      refine ⟨by rw [RingBuffer.size_writeByte, hsize], ?_, ?_, ?_, ?_⟩
      · rw [RingBuffer.length_data_writeByte, hdata]
      · rw [RingBuffer.writePos_writeByte, hpos, hsize, hlb]
        exact Nat.mod_add_mod l.length n 1
      · rw [RingBuffer.full_writeByte, hpos, hsize, hfull, hlb]
        rcases Nat.lt_or_ge l.length n with hlt | hge
        · rw [Nat.mod_eq_of_lt hlt]
          rcases Nat.lt_or_ge (l.length + 1) n with hlt2 | hge2
          · have e1 : (l.length + 1) % n = l.length + 1 := Nat.mod_eq_of_lt hlt2
            have e2 : decide (n ≤ l.length) = false := by simp; omega
            have e3 : decide (n ≤ l.length + 1) = false := by simp; omega
            have e4 : decide ((l.length + 1) % n = 0) = false := by rw [e1]; simp
            rw [e2, e3, e4]
            rfl
          · have heq : n = l.length + 1 := by omega
            have e1 : (l.length + 1) % n = 0 := by rw [heq]; exact Nat.mod_self _
            have e3 : decide (n ≤ l.length + 1) = true := by simp; omega
            rw [e1, e3]
            simp
        · have e2 : decide (n ≤ l.length) = true := by simp; omega
          have e3 : decide (n ≤ l.length + 1) = true := by simp; omega
          rw [e2, e3]
          simp
      · rw [RingBuffer.view_writeByte rb b (by rw [hdata, hsize]) hwlt, hview, List.tail_drop]
        have hassoc : List.replicate n 0 ++ (l ++ [b]) = (List.replicate n 0 ++ l) ++ [b] := by
          simp
        rw [hlb, hassoc, drop_append_singleton _ b _ (by simp; omega)]

/-- When the buffer has wrapped, String returns the chronological view. -/
lemma RingBuffer.String_of_full (rb : RingBuffer) (h : rb.full = true) :
    rb.String = rb.view := by
  simp [RingBuffer.String, RingBuffer.view, h]

lemma writeAll_eq_writeList (n : Nat) (ws : List (List Nat)) :
    writeAll n ws = writeList (NewRingBuffer n) ws.flatten := by
  unfold writeAll writeList
  rw [List.foldl_flatten]
  rfl

/-- C1: for every sequence of writes whose total size exceeds the
capacity n, the snapshot (RingBuffer.String) is exactly the most recent n
bytes of the concatenated writes in chronological order; and Write always
returns (len p, nil). -/
theorem ringBuffer_snapshot_correct (n : Nat) (ws : List (List Nat))
    (hn : 0 < n) (hlen : n < ws.flatten.length) :
    (writeAll n ws).String = ws.flatten.drop (ws.flatten.length - n) ∧
    (∀ (rb : RingBuffer) (p : List Nat), (rb.write p).2 = (p.length, none)) := by
  constructor
  · rw [writeAll_eq_writeList]
    obtain ⟨hsize, hdata, hpos, hfull, hview⟩ := writeList_spec n hn ws.flatten
    have hfull' : (writeList (NewRingBuffer n) ws.flatten).full = true := by
      rw [hfull]; exact decide_eq_true (Nat.le_of_lt hlen)
    rw [RingBuffer.String_of_full _ hfull', hview]
    rw [List.drop_append_eq_append_drop]
    rw [List.drop_eq_nil_of_le (by rw [List.length_replicate]; exact Nat.le_of_lt hlen)]
    rw [List.length_replicate, List.nil_append]
  · intro rb p
    rfl

/-- Witness for C1 at n = 2, writes [[1,2],[3]]: the snapshot is [2,3]
and Write reports full success. -/
theorem ringBuffer_snapshot_correct_witness :
    (writeAll 2 [[1,2],[3]]).String = [2,3] ∧
    ((NewRingBuffer 2).write [7,8,9]).2 = (3, none) := by
  refine ⟨?_, ?_⟩
  · have h := ringBuffer_snapshot_correct 2 [[1,2],[3]] (by decide) (by decide)
    simpa using h.1
  · exact (ringBuffer_snapshot_correct 2 [[1,2],[3]] (by decide) (by decide)).2 (NewRingBuffer 2) [7,8,9]

/-! ## Session state machine (main.go lines 79-1006, 1441-1618)

The Session record keeps the fields the checked claims concern. The cmd
field mirrors the *exec.Cmd pointer: it is assigned before cmd.Start()
is called, and its pid sub-field mirrors cmd.Process, which is nil until
the process has actually been started. stdinOpen mirrors the stdin pipe
field being non-nil, timerArmed mirrors an armed idle timer. -/

/-- The SessionState enumeration from main.go. -/
inductive SessionState where
  | none
  | starting
  | active
  | waiting
  | shuttingDown
  | stopped
deriving DecidableEq, Repr

/-- The Go string value of each state (used in error messages). -/
def SessionState.toGoString : SessionState → String
  | SessionState.none => "none"
  | SessionState.starting => "starting"
  | SessionState.active => "active"
  | SessionState.waiting => "waiting"
  | SessionState.shuttingDown => "shutting_down"
  | SessionState.stopped => "stopped"

/-- Embedding of *exec.Cmd: pid is some p once cmd.Start() has succeeded,
mirroring the cmd.Process field, which stays nil otherwise. -/
structure Cmd where
  pid : Option Nat
deriving DecidableEq, Repr

/-- The Session fields the claims concern (main.go lines 211-235). -/
structure Session where
  state : SessionState
  claudeSessionID : String
  repoPath : String
  cmd : Option Cmd
  stdinOpen : Bool
  timerArmed : Bool
deriving DecidableEq, Repr

/-- The session constructed in main(): StateNone, no process. -/
def initSession : Session :=
  { state := SessionState.none, claudeSessionID := "", repoPath := ""
    cmd := Option.none, stdinOpen := false, timerArmed := false }

/-- Observable actions a transition performs, in program order: state
broadcasts and error events to SSE clients, process spawns, successful
stdin writes, and signals actually delivered to a process. -/
inductive Effect where
  | stateChanged (s : SessionState)
  | errorEvent (msg : String)
  | spawn (resume : Bool)
  | stdinWrite (content : String)
  | sigterm (pid : Nat)
  | sigkill (pid : Nat)
deriving DecidableEq, Repr

/-- Outcome of an attempted process spawn: a pipe cannot be opened,
cmd.Start() itself fails, or the process starts with the given pid. -/
inductive SpawnOutcome where
  | pipeFail
  | startFail
  | ok (pid : Nat)
deriving DecidableEq, Repr

/-- An HTTP response, reduced to status code and optional error string. -/
structure Resp where
  status : Nat
  error : Option String
deriving DecidableEq, Repr

/-- resetIdleTimer (lines 1014-1021): cancel any timer and arm a new one. -/
def resetIdleTimer (s : Session) : Session := { s with timerArmed := true }

/-- cancelIdleTimer (lines 1028-1033): stop the timer if running. -/
def cancelIdleTimer (s : Session) : Session := { s with timerArmed := false }

/-- startClaudeProcess (lines 497-572). Sets StateStarting and broadcasts
it, opens the pipes, assigns cmd/stdin before cmd.Start(), and on success
reaches StateWaiting, broadcasts it and arms the idle timer. Pipe failure
reverts to StateNone before cmd is assigned; a cmd.Start() failure
reverts to StateNone after cmd was assigned. -/
def startClaudeProcess (s : Session) (repoPath : String) (out : SpawnOutcome) :
    Session × Option String × List Effect :=
  let s1 := { s with state := SessionState.starting, repoPath := repoPath }
  let effs := [Effect.stateChanged SessionState.starting]
  match out with
  | SpawnOutcome.pipeFail =>
      ({ s1 with state := SessionState.none }, some "failed to get stdin pipe", effs)
  | SpawnOutcome.startFail =>
      let s2 := { s1 with cmd := some { pid := Option.none }, stdinOpen := true }
      ({ s2 with state := SessionState.none }, some "failed to start claude", effs)
  | SpawnOutcome.ok pid =>
      let s2 := { s1 with cmd := some { pid := some pid }, stdinOpen := true }
      let s3 := resetIdleTimer { s2 with state := SessionState.waiting }
      (s3, Option.none,
        effs ++ [Effect.spawn false, Effect.stateChanged SessionState.waiting])

/-- startClaudeProcessWithMessage (lines 582-619): start the process,
then set StateActive, broadcast it, and write the initial message to
stdin; a failed write is reported but the state stays Active. -/
def startClaudeProcessWithMessage (s : Session) (repoPath msg : String)
    (out : SpawnOutcome) (writeOk : Bool) : Session × Option String × List Effect :=
  match startClaudeProcess s repoPath out with
  | (s1, some e, effs) => (s1, some e, effs)
  | (s1, Option.none, effs) =>
      let s2 := { s1 with state := SessionState.active }
      let effs2 := effs ++ [Effect.stateChanged SessionState.active]
      if writeOk then
        (s2, Option.none, effs2 ++ [Effect.stdinWrite msg])
      else
        (s2, some "failed to send initial message", effs2)

/-- resumeClaudeProcess (lines 632-735): refuse when no session ID is
stored, otherwise spawn with the resume flag, reach StateActive and send
the queued message from a goroutine with no error handling. Failures
revert to StateStopped, with cmd assigned when cmd.Start() itself fails. -/
def resumeClaudeProcess (s : Session) (msg : String) (out : SpawnOutcome) :
    Session × Option String × List Effect :=
  if s.claudeSessionID = "" then
    (s, some "no session ID available for resume", [])
  else
    let s1 := { s with state := SessionState.starting }
    let effs := [Effect.stateChanged SessionState.starting]
    match out with
    | SpawnOutcome.pipeFail =>
        ({ s1 with state := SessionState.stopped }, some "failed to get stdin pipe", effs)
    | SpawnOutcome.startFail =>
        ({ s1 with cmd := some { pid := Option.none }, stdinOpen := true,
                   state := SessionState.stopped }, some "failed to resume claude", effs)
    | SpawnOutcome.ok pid =>
        ({ s1 with cmd := some { pid := some pid }, stdinOpen := true,
                   state := SessionState.active },
         Option.none,
         effs ++ [Effect.spawn true, Effect.stateChanged SessionState.active,
                  Effect.stdinWrite msg])

/-- The MessageTypeResult branch of handleStdout (lines 870-888): record
a non-empty session id, and only from StateActive move to StateWaiting,
broadcast it and arm the idle timer; any other state is left as it is. -/
def turnComplete (s : Session) (sessionID : String) : Session × List Effect :=
  let s1 := if sessionID ≠ "" then { s with claudeSessionID := sessionID } else s
  if s1.state = SessionState.active then
    (resetIdleTimer { s1 with state := SessionState.waiting },
     [Effect.stateChanged SessionState.waiting])
  else (s1, [])

/-- waitForExit (lines 975-1006): on process exit, ShuttingDown becomes
Stopped; any other state becomes None with an error event; the process
handles are cleared. -/
def waitForExit (s : Session) : Session × List Effect :=
  let r :=
    if s.state = SessionState.shuttingDown then
      ({ s with state := SessionState.stopped }, [Effect.stateChanged SessionState.stopped])
    else
      ({ s with state := SessionState.none },
       [Effect.stateChanged SessionState.none,
        Effect.errorEvent "Claude process exited unexpectedly"])
  ({ r.1 with cmd := Option.none, stdinOpen := false }, r.2)

/-- stopSession (lines 1046-1084): only from StateWaiting; moves to
ShuttingDown, broadcasts it, delivers SIGTERM to the process captured
from session.cmd.Process, and schedules a forced kill of that captured
pid after the grace period (returned as the third component). If the
SIGTERM delivery itself fails, SIGKILL is attempted at once and nothing
is scheduled. -/
def stopSession (s : Session) (sigtermFails : Bool) :
    Session × List Effect × Option Nat :=
  if s.state ≠ SessionState.waiting then (s, [], Option.none)
  else
    let s1 := { s with state := SessionState.shuttingDown }
    let effs := [Effect.stateChanged SessionState.shuttingDown]
    match s.cmd with
    | some c =>
        match c.pid with
        | some pid =>
            if sigtermFails then (s1, effs ++ [Effect.sigkill pid], Option.none)
            else (s1, effs ++ [Effect.sigterm pid], some pid)
        | Option.none => (s1, effs, Option.none)
    | Option.none => (s1, effs, Option.none)

/-- The deferred goroutine of stopSession (lines 1074-1080): after the
grace period it always calls Kill on the captured process; when the
process has already exited, os.Process.Kill returns ErrProcessDone and no
signal is delivered, so a SIGKILL effect appears only when the process is
still running at that moment. -/
def idleEpisode (s : Session) (sigtermFails exitsBeforeGrace : Bool) :
    Session × List Effect :=
  match stopSession s sigtermFails with
  | (s1, effs, Option.none) => (s1, effs)
  | (s1, effs, some pid) =>
      if exitsBeforeGrace then (s1, effs) else (s1, effs ++ [Effect.sigkill pid])

/-- Delivered effect of the scheduled forced kill: it reads only the pid
captured when it was scheduled, never the current session. -/
def fireDeferredKill : Option Nat → List Effect
  | some pid => [Effect.sigkill pid]
  | Option.none => []

/-- handleStart (lines 416-478): 409 when the state is neither None nor
Stopped, otherwise run startClaudeProcess and report its outcome. -/
def handleStart (s : Session) (repoPath : String) (out : SpawnOutcome) :
    Session × Resp × List Effect :=
  if s.state ≠ SessionState.none ∧ s.state ≠ SessionState.stopped then
    (s, { status := 409, error := some "session already active" }, [])
  else
    match startClaudeProcess s repoPath out with
    | (s1, some e, effs) => (s1, { status := 500, error := some e }, effs)
    | (s1, Option.none, effs) => (s1, { status := 200, error := Option.none }, effs)

/-- handleMessage (lines 1474-1618). Empty content is a 400. Then by
state: None starts a session carrying the message, Stopped resumes,
Starting is a 503, Active and Waiting write to stdin (500 when the pipe
is missing or the write fails) and a Waiting session becomes Active with
the idle timer cancelled; ShuttingDown falls into the default branch,
a 500 naming the unexpected state. -/
def handleMessage (s : Session) (content envRepoPath : String)
    (out : SpawnOutcome) (writeOk : Bool) : Session × Resp × List Effect :=
  if content = "" then
    (s, { status := 400, error := some "Content is required" }, [])
  else
    match s.state with
    | SessionState.none =>
        match startClaudeProcessWithMessage s envRepoPath content out writeOk with
        | (s1, some e, effs) =>
            (s1, { status := 500, error := some ("failed to start session: " ++ e) }, effs)
        | (s1, Option.none, effs) =>
            (s1, { status := 200, error := Option.none }, effs)
    | SessionState.stopped =>
        match resumeClaudeProcess s content out with
        | (s1, some e, effs) =>
            (s1, { status := 500, error := some ("failed to resume: " ++ e) }, effs)
        | (s1, Option.none, effs) =>
            (s1, { status := 200, error := Option.none }, effs)
    | SessionState.starting =>
        (s, { status := 503, error := some "session is starting, please wait" }, [])
    | SessionState.active =>
        if s.stdinOpen = false then
          (s, { status := 500, error := some "stdin not available" }, [])
        else if writeOk = false then
          (s, { status := 500, error := some "failed to send message to Claude" }, [])
        else
          (s, { status := 200, error := Option.none }, [Effect.stdinWrite content])
    | SessionState.waiting =>
        if s.stdinOpen = false then
          (s, { status := 500, error := some "stdin not available" }, [])
        else if writeOk = false then
          (s, { status := 500, error := some "failed to send message to Claude" }, [])
        else
          ({ (cancelIdleTimer s) with state := SessionState.active },
           { status := 200, error := Option.none },
           [Effect.stdinWrite content, Effect.stateChanged SessionState.active])
    | SessionState.shuttingDown =>
        (s, { status := 500,
              error := some ("unexpected state: " ++ SessionState.toGoString s.state) }, [])

/-! ## Claim theorems for the state machine -/

/-- Sample session: fresh server in StateNone. Used by witnesses. -/
def sessionAfterStart : Session := (handleStart initSession "/repo" (SpawnOutcome.ok 7)).1

/-- Sample session in StateActive with a live process. -/
def sampleActive : Session :=
  { state := SessionState.active, claudeSessionID := "", repoPath := "/repo"
    cmd := some { pid := some 7 }, stdinOpen := true, timerArmed := false }

/-- Sample session in StateWaiting with a live process and armed timer. -/
def sampleWaiting : Session :=
  { state := SessionState.waiting, claudeSessionID := "abc123", repoPath := "/repo"
    cmd := some { pid := some 7 }, stdinOpen := true, timerArmed := true }

/-- Sample session in StateStopped with no process and no session id. -/
def sampleStoppedNoID : Session :=
  { state := SessionState.stopped, claudeSessionID := "", repoPath := "/repo"
    cmd := Option.none, stdinOpen := false, timerArmed := false }

/-- C2: handleStart answers 409 AlreadyActive and leaves the session
untouched exactly when the state is Starting, Active, Waiting or
ShuttingDown; from None or Stopped with a successful spawn it broadcasts
Starting and then Waiting, ending in StateWaiting with the idle timer
armed. -/
theorem start_alreadyActive_iff (s : Session) (rp : String) (pid : Nat) :
    ((s.state = SessionState.starting ∨ s.state = SessionState.active ∨
      s.state = SessionState.waiting ∨ s.state = SessionState.shuttingDown) ↔
      (∀ out, handleStart s rp out =
        (s, { status := 409, error := some "session already active" }, []))) ∧
    ((s.state = SessionState.none ∨ s.state = SessionState.stopped) →
      ((handleStart s rp (SpawnOutcome.ok pid)).1.state = SessionState.waiting ∧
       (handleStart s rp (SpawnOutcome.ok pid)).1.timerArmed = true ∧
       (handleStart s rp (SpawnOutcome.ok pid)).2.2 =
         [Effect.stateChanged SessionState.starting, Effect.spawn false,
          Effect.stateChanged SessionState.waiting])) := by
  constructor
  · constructor
    · intro h out
      have hcond : s.state ≠ SessionState.none ∧ s.state ≠ SessionState.stopped := by
        rcases h with h | h | h | h <;> rw [h] <;> exact ⟨by decide, by decide⟩
      simp [handleStart, hcond]
    · intro h
      have h1 := h SpawnOutcome.pipeFail
      by_contra hnot
      have hns : s.state = SessionState.none ∨ s.state = SessionState.stopped := by
        cases hs : s.state <;> simp_all
      have hcond : ¬ (s.state ≠ SessionState.none ∧ s.state ≠ SessionState.stopped) := by
        rcases hns with h' | h' <;> simp [h']
      rw [handleStart, if_neg hcond] at h1
      simp [startClaudeProcess] at h1
  · intro h
    have hcond : ¬ (s.state ≠ SessionState.none ∧ s.state ≠ SessionState.stopped) := by
      rcases h with h' | h' <;> simp [h']
    rw [handleStart, if_neg hcond]
    simp [startClaudeProcess, resetIdleTimer]

/-- Witness for C2: from the fresh session a successful start reaches
Waiting with the timer armed, having broadcast Starting first; an active
session is rejected with 409. -/
theorem start_alreadyActive_iff_witness :
    (handleStart initSession "/repo" (SpawnOutcome.ok 7)).1.state = SessionState.waiting ∧
    (handleStart initSession "/repo" (SpawnOutcome.ok 7)).1.timerArmed = true ∧
    handleStart sampleActive "/repo" SpawnOutcome.pipeFail =
      (sampleActive, { status := 409, error := some "session already active" }, []) := by
  have h1 := (start_alreadyActive_iff initSession "/repo" 7).2 (Or.inl rfl)
  have h2 := ((start_alreadyActive_iff sampleActive "/repo" 7).1).1
    (Or.inr (Or.inl rfl)) SpawnOutcome.pipeFail
  exact ⟨h1.1, h1.2.1, h2⟩

/-- C3: a result message processed in StateActive moves the session to
StateWaiting with the idle timer armed and records a non-empty resume
token; in every other state the session state is left unchanged (and the
timer is not re-armed). -/
theorem turnComplete_spec (s : Session) (sid : String) :
    (s.state = SessionState.active →
      ((turnComplete s sid).1.state = SessionState.waiting ∧
       (turnComplete s sid).1.timerArmed = true ∧
       (sid ≠ "" → (turnComplete s sid).1.claudeSessionID = sid))) ∧
    (s.state ≠ SessionState.active →
      ((turnComplete s sid).1.state = s.state ∧
       (turnComplete s sid).1.timerArmed = s.timerArmed)) := by
  constructor
  · intro h
    by_cases hsid : sid = ""
    · subst hsid
      simp [turnComplete, h, resetIdleTimer]
    · simp [turnComplete, hsid, h, resetIdleTimer]
  · intro h
    by_cases hsid : sid = ""
    · subst hsid
      simp [turnComplete, h]
    · simp [turnComplete, hsid, h]

/-- Witness for C3: from the sample active session a result carrying
token abc123 reaches Waiting with the timer armed and the token stored;
a duplicate in Waiting leaves the state Waiting. -/
theorem turnComplete_spec_witness :
    (turnComplete sampleActive "abc123").1.state = SessionState.waiting ∧
    (turnComplete sampleActive "abc123").1.timerArmed = true ∧
    (turnComplete sampleActive "abc123").1.claudeSessionID = "abc123" ∧
    (turnComplete sampleWaiting "abc123").1.state = SessionState.waiting := by
  have h1 := (turnComplete_spec sampleActive "abc123").1 rfl
  have h2 := ((turnComplete_spec sampleWaiting "abc123").2 (by decide)).1
  exact ⟨h1.1, h1.2.1, h1.2.2 (by decide), h2⟩

/-- C4: a non-empty message sent while Waiting with the stdin pipe open
and a successful write is written to the subprocess, cancels the idle
timer (so a subsequent timer callback is a no-op and never reaches
ShuttingDown) and moves the session to Active; sent while Active it is
written and the state stays Active. -/
theorem sendMessage_waiting_active (s : Session) (content rp : String)
    (out : SpawnOutcome) (hc : content ≠ "") (hstdin : s.stdinOpen = true) :
    (s.state = SessionState.waiting →
      (Effect.stdinWrite content ∈ (handleMessage s content rp out true).2.2 ∧
       (handleMessage s content rp out true).1.state = SessionState.active ∧
       (handleMessage s content rp out true).1.timerArmed = false ∧
       (∀ b, stopSession (handleMessage s content rp out true).1 b =
          ((handleMessage s content rp out true).1, [], Option.none)))) ∧
    (s.state = SessionState.active →
      (Effect.stdinWrite content ∈ (handleMessage s content rp out true).2.2 ∧
       (handleMessage s content rp out true).1.state = SessionState.active)) := by
  constructor
  · intro h
    have hres : handleMessage s content rp out true =
        ({ (cancelIdleTimer s) with state := SessionState.active },
         { status := 200, error := Option.none },
         [Effect.stdinWrite content, Effect.stateChanged SessionState.active]) := by
      simp [handleMessage, hc, h, hstdin]
    rw [hres]
    refine ⟨by simp, rfl, rfl, ?_⟩
    intro b
    simp [stopSession]
  · intro h
    have hres : handleMessage s content rp out true =
        (s, { status := 200, error := Option.none }, [Effect.stdinWrite content]) := by
      simp [handleMessage, hc, h, hstdin]
    rw [hres, h]
    exact ⟨by simp, rfl⟩

/-- Witness for C4 at the sample sessions: the message is written, the
timer is cancelled, and the state becomes (or stays) Active. -/
theorem sendMessage_waiting_active_witness :
    (handleMessage sampleWaiting "hi" "/repo" SpawnOutcome.pipeFail true).1.state
      = SessionState.active ∧
    (handleMessage sampleWaiting "hi" "/repo" SpawnOutcome.pipeFail true).1.timerArmed = false ∧
    (handleMessage sampleActive "hi" "/repo" SpawnOutcome.pipeFail true).1.state
      = SessionState.active := by
  have h1 := (sendMessage_waiting_active sampleWaiting "hi" "/repo" SpawnOutcome.pipeFail
    (by decide) rfl).1 rfl
  have h2 := (sendMessage_waiting_active sampleActive "hi" "/repo" SpawnOutcome.pipeFail
    (by decide) rfl).2 rfl
  exact ⟨h1.2.1, h1.2.2.1, h2.2⟩

/-- C5: a non-empty message sent while ShuttingDown is rejected
synchronously with an error naming the current state, with no write to
the subprocess, no broadcast, and the session unchanged. -/
theorem sendMessage_shuttingDown (s : Session) (content rp : String)
    (out : SpawnOutcome) (wOk : Bool)
    (h : s.state = SessionState.shuttingDown) (hc : content ≠ "") :
    handleMessage s content rp out wOk =
      (s, { status := 500,
            error := some ("unexpected state: " ++ SessionState.toGoString s.state) }, []) := by
  simp [handleMessage, hc, h]

/-- Witness for C5: the shutting-down variant of the sample session is
rejected with the unexpected-state error and left unchanged. -/
theorem sendMessage_shuttingDown_witness :
    handleMessage { sampleWaiting with state := SessionState.shuttingDown }
        "hi" "/repo" SpawnOutcome.pipeFail true =
      ({ sampleWaiting with state := SessionState.shuttingDown },
       { status := 500, error := some "unexpected state: shutting_down" }, []) := by
  exact sendMessage_shuttingDown _ "hi" "/repo" SpawnOutcome.pipeFail true rfl (by decide)

/-- C10: a message sent while Stopped with no stored resume token fails
synchronously with the no-session-id error, leaves the session exactly as
it was (no spawn, no broadcast, state still Stopped), and a later Start
can still succeed, reaching Waiting. -/
theorem sendMessage_stopped_noToken (s : Session) (content rp rp2 : String)
    (out : SpawnOutcome) (wOk : Bool) (pid : Nat)
    (h1 : s.state = SessionState.stopped) (h2 : s.claudeSessionID = "")
    (hc : content ≠ "") :
    handleMessage s content rp2 out wOk =
      (s, { status := 500,
            error := some "failed to resume: no session ID available for resume" }, []) ∧
    (handleStart s rp (SpawnOutcome.ok pid)).1.state = SessionState.waiting := by
  constructor
  · simp [handleMessage, hc, h1, resumeClaudeProcess, h2]
  · simp [handleStart, h1, startClaudeProcess, resetIdleTimer]

/-- Witness for C10 at the sample stopped session without a token. -/
theorem sendMessage_stopped_noToken_witness :
    handleMessage sampleStoppedNoID "hi" "/repo" SpawnOutcome.pipeFail true =
      (sampleStoppedNoID,
       { status := 500,
         error := some "failed to resume: no session ID available for resume" }, []) ∧
    (handleStart sampleStoppedNoID "/repo" (SpawnOutcome.ok 9)).1.state
      = SessionState.waiting :=
  sendMessage_stopped_noToken sampleStoppedNoID "hi" "/repo" "/repo"
    SpawnOutcome.pipeFail true 9 rfl rfl (by decide)

/-- C6: when the idle timer fires in StateWaiting (with a live process
and a deliverable SIGTERM) the session moves to ShuttingDown and the
effect trace is exactly one broadcast, one SIGTERM, and one SIGKILL
delivered only when the process has not exited before the grace period
elapses; fired in any other state nothing happens at all. -/
theorem idleTimeout_signals (s : Session) (pid : Nat) (exitsBeforeGrace : Bool)
    (hcmd : s.cmd = some { pid := some pid }) :
    (s.state = SessionState.waiting →
      ((idleEpisode s false exitsBeforeGrace).1.state = SessionState.shuttingDown ∧
       (exitsBeforeGrace = true →
         (idleEpisode s false exitsBeforeGrace).2 =
           [Effect.stateChanged SessionState.shuttingDown, Effect.sigterm pid]) ∧
       (exitsBeforeGrace = false →
         (idleEpisode s false exitsBeforeGrace).2 =
           [Effect.stateChanged SessionState.shuttingDown, Effect.sigterm pid,
            Effect.sigkill pid]))) ∧
    (s.state ≠ SessionState.waiting →
      idleEpisode s false exitsBeforeGrace = (s, [])) := by
  constructor
  · intro h
    have hstop : stopSession s false =
        ({ s with state := SessionState.shuttingDown },
         [Effect.stateChanged SessionState.shuttingDown, Effect.sigterm pid], some pid) := by
      simp [stopSession, h, hcmd]
    cases exitsBeforeGrace with
    | true =>
        refine ⟨?_, fun _ => ?_, fun hff => absurd hff (by decide)⟩ <;>
          simp [idleEpisode, hstop]
    | false =>
        refine ⟨?_, fun htt => absurd htt (by decide), fun _ => ?_⟩ <;>
          simp [idleEpisode, hstop]
  · intro h
    simp [idleEpisode, stopSession, h]

/-- Witness for C6 at the sample waiting session: the graceful signal is
delivered exactly once, and the forced signal appears exactly when the
process survives the grace period. -/
theorem idleTimeout_signals_witness :
    (idleEpisode sampleWaiting false true).2 =
      [Effect.stateChanged SessionState.shuttingDown, Effect.sigterm 7] ∧
    (idleEpisode sampleWaiting false false).2 =
      [Effect.stateChanged SessionState.shuttingDown, Effect.sigterm 7,
       Effect.sigkill 7] ∧
    (idleEpisode sampleActive false false) = (sampleActive, []) := by
  refine ⟨((idleTimeout_signals sampleWaiting 7 true rfl).1 rfl).2.1 rfl,
          ((idleTimeout_signals sampleWaiting 7 false rfl).1 rfl).2.2 rfl,
          (idleTimeout_signals sampleActive 7 false rfl).2 (by decide)⟩

/-- C7: the forced kill scheduled by stopSession targets the pid captured
at scheduling time; whatever process later occupies the session (any
newPid different from the captured pid), firing the deferred kill
delivers exactly one SIGKILL to the captured pid and none to the newer
generation. -/
theorem deferredKill_targets_capture (s s2 : Session) (pid newPid : Nat)
    (hs : s.state = SessionState.waiting) (hcmd : s.cmd = some { pid := some pid })
    (hs2 : s2.cmd = some { pid := some newPid }) (hne : newPid ≠ pid) :
    (stopSession s false).2.2 = some pid ∧
    fireDeferredKill (stopSession s false).2.2 = [Effect.sigkill pid] ∧
    Effect.sigkill newPid ∉ fireDeferredKill (stopSession s false).2.2 := by
  have hstop : (stopSession s false).2.2 = some pid := by
    simp [stopSession, hs, hcmd]
  refine ⟨hstop, by rw [hstop]; rfl, ?_⟩
  rw [hstop]
  simp [fireDeferredKill, hne]

/-- Witness for C7: the kill scheduled while pid 7 was running fires
against pid 7 and does not touch the resumed process with pid 8. -/
theorem deferredKill_targets_capture_witness :
    (stopSession sampleWaiting false).2.2 = some 7 ∧
    Effect.sigkill 8 ∉ fireDeferredKill (stopSession sampleWaiting false).2.2 := by
  have h := deferredKill_targets_capture sampleWaiting
    { sampleWaiting with cmd := some { pid := some 8 } } 7 8 rfl rfl rfl (by decide)
  exact ⟨h.1, h.2.2⟩

/-! ## SSE fan-out hub (main.go lines 116-138, 1235-1253) -/

/-- The constant SSEClientBufferSize from main.go: each client channel
buffers 100 events. -/
def SSEClientBufferSize : Nat := 100

/-- An SSE event: type tag plus optional content and state payloads. -/
structure SSEEvent where
  type : String
  content : String
  state : String
deriving DecidableEq, Repr

/-- A connected SSE client: identifier and its buffered event queue. -/
structure SSEClient where
  id : String
  events : List SSEEvent
deriving DecidableEq, Repr

/-- The non-blocking select of broadcastEvent: enqueue when the buffered
channel has room, otherwise drop the event for this client. -/
def trySend (q : List SSEEvent) (e : SSEEvent) : List SSEEvent :=
  if q.length < SSEClientBufferSize then q ++ [e] else q

/-- broadcastEvent (lines 1240-1253): attempt a non-blocking send to
every registered client. -/
def broadcastEvent (clients : List SSEClient) (e : SSEEvent) : List SSEClient :=
  clients.map (fun c => { c with events := trySend c.events e })

/-- C9: broadcasting one event to clients of which exactly the i-th has a
full queue delivers nothing to that client and the event to every other
client; the broadcast visits every client (a total, non-blocking map). -/
theorem broadcast_drops_only_full (clients : List SSEClient) (e : SSEEvent)
    (i : Nat) (hi : i < clients.length)
    (hfull : (clients.get ⟨i, hi⟩).events.length = SSEClientBufferSize)
    (hothers : ∀ j (hj : j < clients.length), j ≠ i →
      (clients.get ⟨j, hj⟩).events.length < SSEClientBufferSize) :
    (broadcastEvent clients e).length = clients.length ∧
    (∀ (hj : i < (broadcastEvent clients e).length),
      ((broadcastEvent clients e).get ⟨i, hj⟩).events = (clients.get ⟨i, hi⟩).events) ∧
    (∀ j (hj : j < clients.length) (hj2 : j < (broadcastEvent clients e).length), j ≠ i →
      ((broadcastEvent clients e).get ⟨j, hj2⟩).events
        = (clients.get ⟨j, hj⟩).events ++ [e]) := by
  have hlen : (broadcastEvent clients e).length = clients.length := by
    simp [broadcastEvent]
  simp only [List.get_eq_getElem] at hfull hothers ⊢
  refine ⟨hlen, ?_, ?_⟩
  · intro hj
    have : (broadcastEvent clients e).get ⟨i, hj⟩ =
        { clients.get ⟨i, hi⟩ with events := trySend (clients.get ⟨i, hi⟩).events e } := by
      simp [broadcastEvent]
    simp only [List.get_eq_getElem] at this
    rw [this]
    simp [trySend, hfull]
  · intro j hj hj2 hne
    have : (broadcastEvent clients e).get ⟨j, hj2⟩ =
        { clients.get ⟨j, hj⟩ with events := trySend (clients.get ⟨j, hj⟩).events e } := by
      simp [broadcastEvent]
    simp only [List.get_eq_getElem] at this
    rw [this]
    simp [trySend, hothers j hj hne]

/-- A full queue of 100 placeholder events. -/
def fullQueue : List SSEEvent :=
  List.replicate SSEClientBufferSize { type := "output", content := "x", state := "" }

/-- Witness for C9 with two clients, the first full: the first queue is
unchanged, the second receives the event. -/
theorem broadcast_drops_only_full_witness :
    (broadcastEvent [{ id := "a", events := fullQueue }, { id := "b", events := [] }]
        { type := "state", content := "", state := "waiting" }).length = 2 ∧
    ((broadcastEvent [{ id := "a", events := fullQueue }, { id := "b", events := [] }]
        { type := "state", content := "", state := "waiting" }).get
          ⟨0, by simp [broadcastEvent]⟩).events = fullQueue ∧
    ((broadcastEvent [{ id := "a", events := fullQueue }, { id := "b", events := [] }]
        { type := "state", content := "", state := "waiting" }).get
          ⟨1, by simp [broadcastEvent]⟩).events =
      [{ type := "state", content := "", state := "waiting" }] := by
  have h := broadcast_drops_only_full
    [{ id := "a", events := fullQueue }, { id := "b", events := [] }]
    { type := "state", content := "", state := "waiting" } 0 (by decide)
    (by simp [fullQueue]) (by
      intro j hj hne
      match j with
      | 0 => exact absurd rfl hne
      | 1 => simp [SSEClientBufferSize]
      | n + 2 => exact absurd hj (by simp))
  refine ⟨h.1, h.2.1 (by simp [broadcastEvent]), ?_⟩
  have h2 := h.2.2 1 (by decide) (by simp [broadcastEvent]) (by decide)
  simpa using h2

/-! ## Reachability and the process-handle invariant (claim C8) -/

/-- The invariant claimed in the spec: the subprocess handle is non-nil
exactly in the states Starting, Active, Waiting, ShuttingDown. -/
def cmdInv (s : Session) : Prop :=
  s.cmd.isSome = true ↔
    (s.state = SessionState.starting ∨ s.state = SessionState.active ∨
     s.state = SessionState.waiting ∨ s.state = SessionState.shuttingDown)

instance (s : Session) : Decidable (cmdInv s) := by
  unfold cmdInv
  infer_instance

/-- One step of the session under its operations, as the claim lists
them: Start, SendMessage, turn-complete, idle timeout, process exit —
including failed spawns. A process-exit step requires a live handle. -/
inductive StepFull : Session → Session → Prop where
  | start (s : Session) (rp : String) (out : SpawnOutcome) :
      StepFull s (handleStart s rp out).1
  | message (s : Session) (content rp : String) (out : SpawnOutcome) (wOk : Bool) :
      StepFull s (handleMessage s content rp out wOk).1
  | turn (s : Session) (sid : String) : StepFull s (turnComplete s sid).1
  | idle (s : Session) (stf : Bool) : StepFull s (stopSession s stf).1
  | exited (s : Session) (h : s.cmd.isSome = true) : StepFull s (waitForExit s).1

/-- States reachable from the freshly constructed session. -/
def ReachableFull (s : Session) : Prop :=
  Relation.ReflTransGen StepFull initSession s

/-- The same steps with the cmd.Start()-failure outcome excluded: pipe
failures and successful spawns remain possible. -/
inductive StepOk : Session → Session → Prop where
  | start (s : Session) (rp : String) (out : SpawnOutcome)
      (h : out ≠ SpawnOutcome.startFail) : StepOk s (handleStart s rp out).1
  | message (s : Session) (content rp : String) (out : SpawnOutcome) (wOk : Bool)
      (h : out ≠ SpawnOutcome.startFail) : StepOk s (handleMessage s content rp out wOk).1
  | turn (s : Session) (sid : String) : StepOk s (turnComplete s sid).1
  | idle (s : Session) (stf : Bool) : StepOk s (stopSession s stf).1
  | exited (s : Session) (h : s.cmd.isSome = true) : StepOk s (waitForExit s).1

/-- States reachable when no cmd.Start() call ever fails. -/
def ReachableOk (s : Session) : Prop :=
  Relation.ReflTransGen StepOk initSession s

/-- The session produced by one Start on the fresh server whose
cmd.Start() call fails: state None with a stale non-nil handle. -/
def staleHandleSession : Session :=
  (handleStart initSession "/repo" SpawnOutcome.startFail).1

/-- Counterexample to C8 as stated: a single failed Start from the
initial session reaches a state with a non-nil subprocess handle and
state None, violating the claimed invariant. -/
theorem invariant_counterexample :
    ReachableFull staleHandleSession ∧
    staleHandleSession.state = SessionState.none ∧
    staleHandleSession.cmd.isSome = true ∧
    ¬ cmdInv staleHandleSession := by
  refine ⟨Relation.ReflTransGen.single
    (StepFull.start initSession "/repo" SpawnOutcome.startFail), ?_, ?_, ?_⟩
  · rfl
  · rfl
  · decide

lemma cmdInv_handleStart (s : Session) (rp : String) (out : SpawnOutcome)
    (hout : out ≠ SpawnOutcome.startFail) (hinv : cmdInv s) :
    cmdInv (handleStart s rp out).1 := by
  rcases s with ⟨st, csid, srp, scmd, sso, stm⟩
  cases out with
  | startFail => exact absurd rfl hout
  | pipeFail =>
      cases st <;>
        simp_all [handleStart, startClaudeProcess, cmdInv, resetIdleTimer]
  | ok pid =>
      cases st <;>
        simp_all [handleStart, startClaudeProcess, cmdInv, resetIdleTimer]

lemma cmdInv_handleMessage (s : Session) (content rp : String) (out : SpawnOutcome)
    (wOk : Bool) (hout : out ≠ SpawnOutcome.startFail) (hinv : cmdInv s) :
    cmdInv (handleMessage s content rp out wOk).1 := by
  rcases s with ⟨st, csid, srp, scmd, sso, stm⟩
  by_cases hc : content = ""
  · simp_all [handleMessage, cmdInv]
  cases out with
  | startFail => exact absurd rfl hout
  | pipeFail =>
      cases st <;> cases wOk <;> cases sso <;> by_cases hid : csid = "" <;>
        simp_all [handleMessage, startClaudeProcessWithMessage, startClaudeProcess,
                  resumeClaudeProcess, cmdInv, resetIdleTimer, cancelIdleTimer]
  | ok pid =>
      cases st <;> cases wOk <;> cases sso <;> by_cases hid : csid = "" <;>
        simp_all [handleMessage, startClaudeProcessWithMessage, startClaudeProcess,
                  resumeClaudeProcess, cmdInv, resetIdleTimer, cancelIdleTimer]

lemma cmdInv_turnComplete (s : Session) (sid : String) (hinv : cmdInv s) :
    cmdInv (turnComplete s sid).1 := by
  rcases s with ⟨st, csid, srp, scmd, sso, stm⟩
  by_cases hsid : sid = "" <;> cases st <;>
    simp_all [turnComplete, cmdInv, resetIdleTimer]

lemma cmdInv_stopSession (s : Session) (stf : Bool) (hinv : cmdInv s) :
    cmdInv (stopSession s stf).1 := by
  rcases s with ⟨st, csid, srp, scmd, sso, stm⟩
  rcases scmd with _ | ⟨_ | pid⟩ <;> cases st <;> cases stf <;>
    simp_all [stopSession, cmdInv]

lemma cmdInv_waitForExit (s : Session) (hinv : cmdInv s) :
    cmdInv (waitForExit s).1 := by
  rcases s with ⟨st, csid, srp, scmd, sso, stm⟩
  cases st <;> simp_all [waitForExit, cmdInv]

lemma cmdInv_step (s s2 : Session) (h : StepOk s s2) (hinv : cmdInv s) : cmdInv s2 := by
  cases h with
  | start rp out hout => exact cmdInv_handleStart s rp out hout hinv
  | message content rp out wOk hout =>
      exact cmdInv_handleMessage s content rp out wOk hout hinv
  | turn sid => exact cmdInv_turnComplete s sid hinv
  | idle stf => exact cmdInv_stopSession s stf hinv
  | exited hsome => exact cmdInv_waitForExit s hinv

/-- C8 amended: in every state reachable through the session operations
in which no cmd.Start() call fails, the subprocess handle is non-nil
exactly when the state is Starting, Active, Waiting or ShuttingDown. The
restriction is forced: startClaudeProcess and resumeClaudeProcess assign
session.cmd before calling cmd.Start() and do not clear it when the call
fails, leaving a stale non-nil handle in state None or Stopped. -/
theorem invariant_amended (s : Session) (h : ReachableOk s) : cmdInv s := by
  induction h with
  | refl => decide
  | tail hab hbc ih => exact cmdInv_step _ _ hbc ih

/-- Witness for the amended C8: the invariant holds at the state reached
by one successful Start from the fresh session. -/
theorem invariant_amended_witness : cmdInv sessionAfterStart :=
  invariant_amended sessionAfterStart
    (Relation.ReflTransGen.single
      (StepOk.start initSession "/repo" (SpawnOutcome.ok 7) (by decide)))
